import Mathlib

/-!
Shallow embedding of the kube-rs API core excerpt:
`src/kube/src/api/{dynamic,object,admission,params,mod}.rs`.

Rust `String` is modelled by `String`, `Option<T>` by `Option`,
`Result<T, Error>` by `Except KubeError T`, `u32` by `Nat` (no arithmetic
is performed on them, only comparisons), `HashMap<String,String>` by an
association list, and `serde_json::Value` by the `Json` inductive below.
-/

/-- JSON values, modelling `serde_json::Value` (numbers restricted to the
naturals actually used by the embedded structs). -/
inductive Json : Type where
  | null : Json
  | bool (b : Bool) : Json
  | num (n : Nat) : Json
  | str (s : String) : Json
  | arr (xs : List Json) : Json
  | obj (kvs : List (String × Json)) : Json
deriving Repr

/-- The error enum `crate::Error`, restricted to the variants raised by the
embedded code (`DynamicType`, `RequestValidation`, `SerializationError`). -/
inductive KubeError : Type where
  | DynamicType (msg : String) : KubeError
  | RequestValidation (msg : String) : KubeError
  | SerializationError (msg : String) : KubeError
deriving Repr, DecidableEq

/-- True exactly on the `RequestValidation` variant. -/
def KubeError.isRequestValidation : KubeError → Bool
  | .RequestValidation _ => true
  | _ => false

/-- True exactly on the `DynamicType` variant. -/
def KubeError.isDynamicType : KubeError → Bool
  | .DynamicType _ => true
  | _ => false

/-- `TypeMeta`: the `apiVersion`/`kind` pair flattened into envelopes. -/
structure TypeMeta where
  api_version : String
  kind : String
deriving Repr, DecidableEq

/-- `GroupVersionKind` from `dynamic.rs`. -/
structure GroupVersionKind where
  group : String
  version : String
  kind : String
  api_version : String
  plural : Option String
deriving Repr, DecidableEq

/-- `GroupVersionResource` (re-exported from kube-core); the analogous
triple addressing the plural resource. Only carried through the admission
types here, never inspected. -/
structure GroupVersionResource where
  group : String
  version : String
  resource : String
  api_version : String
deriving Repr, DecidableEq

/-- The fields of `k8s_openapi` `APIResource` read by
`GroupVersionKind::from_api_resource` (`group`, `version`, `kind`, `name`). -/
structure APIResource where
  group : Option String
  version : Option String
  kind : String
  name : String
deriving Repr, DecidableEq

/-- Rust `group_version.splitn(2, '/')` on a char list: split at the first
slash, keeping the remainder (later slashes included) whole. `none` when no
slash occurs. -/
def splitFirstSlash : List Char → Option (List Char × List Char)
  | [] => none
  | c :: cs =>
    if c = '/' then some ([], cs)
    else (splitFirstSlash cs).map (fun p => (c :: p.1, p.2))

/-- The `match *gvsplit.as_slice()` step of `from_api_resource`:
`[g, v] => (g, v)` when a slash is present, `[v] => ("", v)` otherwise. -/
def splitGroupVersion (s : String) : String × String :=
  match splitFirstSlash s.toList with
  | some (g, v) => (String.mk g, String.mk v)
  | none => ("", s)

/-- `GroupVersionKind::from_api_resource` (`dynamic.rs` lines 42-65). -/
def GroupVersionKind.from_api_resource (ar : APIResource) (group_version : String) :
    GroupVersionKind :=
  let dgv := splitGroupVersion group_version
  let group := ar.group.getD dgv.1
  let version := ar.version.getD dgv.2
  let kind := ar.kind
  let api_version := if group.isEmpty then version else group ++ "/" ++ version
  { group := group, version := version, kind := kind,
    api_version := api_version, plural := some ar.name }

/-- `GroupVersionKind::gvk` (`dynamic.rs` lines 68-96). -/
def GroupVersionKind.gvk (group_ version_ kind_ : String) :
    Except KubeError GroupVersionKind :=
  let version := version_
  let group := group_
  let kind := kind_
  let api_version := if group.isEmpty then version else group ++ "/" ++ version
  if version.isEmpty then
    .error (.DynamicType ("GroupVersionKind '" ++ kind ++ "' must have a version"))
  else if kind.isEmpty then
    .error (.DynamicType ("GroupVersionKind '" ++ kind ++ "' must have a kind"))
  else
    .ok { group := group, version := version, kind := kind,
          api_version := api_version, plural := none }

/-- Rust `str::ends_with` on the character level. -/
def strEndsWith (s post : String) : Bool :=
  post.toList.isSuffixOf s.toList

/-- Rust `str::to_ascii_lowercase` (`Char.toLower` only lowers ASCII). -/
def toAsciiLowercase (s : String) : String :=
  String.mk (s.toList.map Char.toLower)

/-- Modelled from the spec: `to_plural` lives in `kube_core::metadata`,
which is not part of this excerpt; per the spec the plural "is derived by
lower-casing `kind` and applying English pluralization heuristics (trailing
"s"/"es"/"ies" rules)". Words ending in s/x/z/ch/sh take "es"; words ending
in y after a consonant replace the y with "ies"; all else appends "s". -/
def to_plural (word : String) : String :=
  if strEndsWith word "s" || strEndsWith word "x" || strEndsWith word "z"
      || strEndsWith word "ch" || strEndsWith word "sh" then
    word ++ "es"
  else if strEndsWith word "y" then
    match word.toList.dropLast.getLast? with
    | some c =>
      if c = 'a' || c = 'e' || c = 'i' || c = 'o' || c = 'u' then word ++ "s"
      else String.mk word.toList.dropLast ++ "ies"
    | none => word ++ "s"
  else
    word ++ "s"

/-- The fields of `k8s_openapi` `ObjectMeta` read by the embedded code
(`name`, `namespace`, `resource_version`). -/
structure ObjectMeta where
  name : Option String
  namespace_ : Option String
  resource_version : Option String
deriving Repr, DecidableEq

/-- `DynamicObject` from `dynamic.rs`. -/
structure DynamicObject where
  types : Option TypeMeta
  metadata : ObjectMeta
  data : Json
deriving Repr

/-- `<DynamicObject as Resource>::kind` (`dynamic.rs` lines 161-163). -/
def DynamicObject.kind (dt : GroupVersionKind) : String :=
  dt.kind

/-- `<DynamicObject as Resource>::plural` (`dynamic.rs` lines 169-176):
the explicit plural when set, else inference from the lowercased kind. -/
def DynamicObject.plural (dt : GroupVersionKind) : String :=
  match dt.plural with
  | some plural => plural
  | none => to_plural (toAsciiLowercase (DynamicObject.kind dt))

/-- `Object<P, U>` from `object.rs`. -/
structure Object (P U : Type) where
  types : TypeMeta
  metadata : ObjectMeta
  spec : P
  status : Option U
deriving Repr

/-- `<Object<P, U> as Resource>::kind` (`object.rs` lines 142-144). -/
def Object.kind (dt : GroupVersionKind) : String :=
  dt.kind

/-- `<Object<P, U> as Resource>::plural` (`object.rs` lines 150-157):
textually the same derivation as `DynamicObject`'s, duplicated in the
source. -/
def Object.plural (dt : GroupVersionKind) : String :=
  match dt.plural with
  | some plural => plural
  | none => to_plural (toAsciiLowercase (Object.kind dt))

/-- Escape a string for JSON output as `serde_json` does for the quote and
backslash characters (the only ones occurring in the embedded values). -/
def jsonEscape (s : String) : String :=
  String.mk (s.toList.foldr
    (fun c acc => if c = '"' || c = '\\' then '\\' :: c :: acc else c :: acc) [])

mutual

/-- Compact JSON rendering, as `serde_json::to_string` produces. -/
def Json.render : Json → String
  | .null => "null"
  | .bool b => if b then "true" else "false"
  | .num n => toString n
  | .str s => "\"" ++ jsonEscape s ++ "\""
  | .arr xs => "[" ++ Json.renderList xs ++ "]"
  | .obj kvs => "\x7b" ++ Json.renderObj kvs ++ "\x7d"

/-- Comma-separated rendering of array elements. -/
def Json.renderList : List Json → String
  | [] => ""
  | [x] => Json.render x
  | x :: y :: xs => Json.render x ++ "," ++ Json.renderList (y :: xs)

/-- Comma-separated rendering of object members. -/
def Json.renderObj : List (String × Json) → String
  | [] => ""
  | [kv] => "\"" ++ jsonEscape kv.1 ++ "\":" ++ Json.render kv.2
  | kv :: kw :: kvs =>
    "\"" ++ jsonEscape kv.1 ++ "\":" ++ Json.render kv.2 ++ ","
      ++ Json.renderObj (kw :: kvs)

end

/-- `META_KIND`: the `kind` field of the admission envelope. -/
def META_KIND : String := "AdmissionReview"

/-- `META_API_VERSION_V1`. -/
def META_API_VERSION_V1 : String := "admission.k8s.io/v1"

/-- `META_API_VERSION_V1BETA1`. -/
def META_API_VERSION_V1BETA1 : String := "admission.k8s.io/v1beta1"

/-- The fields of `k8s_openapi` `UserInfo` carried by admission requests. -/
structure UserInfo where
  username : Option String
  uid : Option String
  groups : Option (List String)
deriving Repr, DecidableEq

/-- The fields of `k8s_openapi` meta/v1 `Status` used by the admission
code (`message`, `reason`, `code`); `Default::default()` leaves all unset. -/
structure Status where
  message : Option String
  reason : Option String
  code : Option Nat
deriving Repr, DecidableEq

/-- `Status::default()`. -/
def Status.default : Status :=
  { message := none, reason := none, code := none }

/-- The `Operation` enum from `admission.rs`. -/
inductive Operation : Type where
  | CREATE : Operation
  | UPDATE : Operation
  | DELETE : Operation
  | CONNECT : Operation
deriving Repr, DecidableEq

/-- `RawExtension` payloads, modelled as raw JSON. -/
abbrev RawExtension := Json

/-- `AdmissionRequest<T>` from `admission.rs` (the `types` field is
`#[serde(skip)]` on the wire but present in the struct). -/
structure AdmissionRequest (T : Type) where
  types : TypeMeta
  uid : String
  kind : GroupVersionKind
  resource : GroupVersionResource
  sub_resource : Option String
  request_kind : Option GroupVersionKind
  request_resource : Option GroupVersionResource
  request_sub_resource : Option String
  name : String
  namespace_ : Option String
  operation : Operation
  user_info : UserInfo
  object : Option T
  old_object : Option T
  dry_run : Bool
  options : Option RawExtension

/-- The `PatchType` enum from `admission.rs`: only JSONPatch exists. -/
inductive PatchType : Type where
  | JsonPatch : PatchType
deriving Repr, DecidableEq

/-- `AdmissionResponse` from `admission.rs`; `patch` is `Option<Vec<u8>>`
in the source, modelled here as the serialized patch text. -/
structure AdmissionResponse where
  types : TypeMeta
  uid : String
  allowed : Bool
  result : Status
  patch : Option String
  patch_type : Option PatchType
  audit_annotations : List (String × String)
  warnings : Option (List String)
deriving Repr, DecidableEq

/-- `AdmissionReview<T>` from `admission.rs`. -/
structure AdmissionReview (T : Type) where
  types : TypeMeta
  request : Option (AdmissionRequest T)
  response : Option AdmissionResponse

/-- `impl TryInto<AdmissionRequest<T>> for AdmissionReview<T>`
(`admission.rs` lines 45-59): move the envelope `types` into the request,
or fail with `RequestValidation` when `request` is absent. -/
def AdmissionReview.try_into {T : Type} (self : AdmissionReview T) :
    Except KubeError (AdmissionRequest T) :=
  match self.request with
  | some req => .ok { req with types := self.types }
  | none => .error (.RequestValidation
      "invalid AdmissionRequest. expected Some but got None")

/-- `impl From<&AdmissionRequest<T>> for AdmissionResponse`
(`admission.rs` lines 253-266). -/
def AdmissionResponse.from_request {T : Type} (req : AdmissionRequest T) :
    AdmissionResponse :=
  { types := req.types
    uid := req.uid
    allowed := true
    result := Status.default
    patch := none
    patch_type := none
    audit_annotations := []
    warnings := none }

/-- `AdmissionResponse::invalid` (`admission.rs` lines 272-292). -/
def AdmissionResponse.invalid (reason : String) : AdmissionResponse :=
  { types := { kind := META_KIND, api_version := META_API_VERSION_V1BETA1 }
    uid := ""
    allowed := false
    result := { Status.default with reason := some reason }
    patch := none
    patch_type := none
    audit_annotations := []
    warnings := none }

/-- `AdmissionResponse::deny` (`admission.rs` lines 296-301). -/
def AdmissionResponse.deny (self : AdmissionResponse) (reason : String) :
    AdmissionResponse :=
  { self with
    allowed := false
    result := { self.result with message := some reason } }

/-- `AdmissionResponse::with_patch` (`admission.rs` lines 304-309); the
embedded patch values always serialize, so no `Serialization` error arises. -/
def AdmissionResponse.with_patch (self : AdmissionResponse) (patch : Json) :
    Except KubeError AdmissionResponse :=
  .ok { self with
        patch := some (Json.render patch)
        patch_type := some PatchType.JsonPatch }

/-- `AdmissionResponse::into_review` (`admission.rs` lines 313-319). -/
def AdmissionResponse.into_review (self : AdmissionResponse) :
    AdmissionReview DynamicObject :=
  { types := self.types
    request := none
    response := some self }

/-- `ListParams` from `params.rs`. -/
structure ListParams where
  label_selector : Option String
  field_selector : Option String
  timeout : Option Nat
  bookmarks : Bool
  limit : Option Nat
  continue_token : Option String
deriving Repr, DecidableEq

/-- `impl Default for ListParams` (`params.rs` lines 50-63). -/
def ListParams.default : ListParams :=
  { bookmarks := true
    label_selector := none
    field_selector := none
    timeout := none
    limit := none
    continue_token := none }

/-- `ListParams::validate` (`params.rs` lines 66-77): reject a set timeout
of 295 seconds or more. -/
def ListParams.validate (self : ListParams) : Except KubeError Unit :=
  match self.timeout with
  | some t =>
    if t ≥ 295 then
      .error (.RequestValidation "ListParams::timeout must be < 295s")
    else
      .ok ()
  | none => .ok ()

/-- The `Patch<T>` enum from `params.rs` (the `Json` variant carries an
RFC 6902 document, modelled as raw JSON). -/
inductive Patch (T : Type) : Type where
  | Apply (t : T) : Patch T
  | Json (p : Json) : Patch T
  | Merge (t : T) : Patch T
  | Strategic (t : T) : Patch T

/-- `Patch::is_apply` (`params.rs` lines 230-232). -/
def Patch.is_apply {T : Type} : Patch T → Bool
  | .Apply _ => true
  | _ => false

/-- `Patch::content_type` (`params.rs` lines 234-243). -/
def Patch.content_type {T : Type} : Patch T → String
  | .Apply _ => "application/apply-patch+yaml"
  | .Json _ => "application/json-patch+json"
  | .Merge _ => "application/merge-patch+json"
  | .Strategic _ => "application/strategic-merge-patch+json"

/-- The `PropagationPolicy` enum from `params.rs`. -/
inductive PropagationPolicy : Type where
  | Orphan : PropagationPolicy
  | Background : PropagationPolicy
  | Foreground : PropagationPolicy
deriving Repr, DecidableEq

/-- `Preconditions` from `params.rs`. -/
structure Preconditions where
  resource_version : Option String
  uid : Option String
deriving Repr, DecidableEq

/-- `DeleteParams` from `params.rs`. -/
structure DeleteParams where
  dry_run : Bool
  grace_period_seconds : Option Nat
  propagation_policy : Option PropagationPolicy
  preconditions : Option Preconditions
deriving Repr, DecidableEq

/-- `DeleteParams::default()` (all fields unset, `dry_run = false`). -/
def DeleteParams.default : DeleteParams :=
  { dry_run := false
    grace_period_seconds := none
    propagation_policy := none
    preconditions := none }

/-- `dry_run_all_ser` (`params.rs` lines 364-377): `true` serializes as the
one-element tuple `["All"]`; `false` serializes as nothing. -/
def dry_run_all_ser (t : Bool) : Option Json :=
  if t then some (Json.arr [Json.str "All"]) else none

/-- Serde serialization of `PropagationPolicy`: unit enum variants render
as their name. -/
def PropagationPolicy.toJson : PropagationPolicy → Json
  | .Orphan => .str "Orphan"
  | .Background => .str "Background"
  | .Foreground => .str "Foreground"

/-- Serde serialization of `Preconditions` (camelCase fields, `None`
skipped). -/
def Preconditions.toJson (p : Preconditions) : Json :=
  .obj
    ((match p.resource_version with
      | some rv => [("resourceVersion", Json.str rv)]
      | none => [])
     ++ (match p.uid with
      | some u => [("uid", Json.str u)]
      | none => []))

/-- Serde serialization of `DeleteParams` to its member list: camelCase
names, `dry_run` skipped when false (`skip_serializing_if = "Not::not"`)
and otherwise emitted through `dry_run_all_ser`; `None` fields skipped. -/
def DeleteParams.toJsonFields (dp : DeleteParams) : List (String × Json) :=
  (if dp.dry_run then
     match dry_run_all_ser dp.dry_run with
     | some j => [("dryRun", j)]
     | none => []
   else [])
  ++ (match dp.grace_period_seconds with
      | some g => [("gracePeriodSeconds", Json.num g)]
      | none => [])
  ++ (match dp.propagation_policy with
      | some pp => [("propagationPolicy", pp.toJson)]
      | none => [])
  ++ (match dp.preconditions with
      | some pc => [("preconditions", pc.toJson)]
      | none => [])

/-- Serde serialization of `DeleteParams` as a JSON object. -/
def DeleteParams.toJson (dp : DeleteParams) : Json :=
  .obj dp.toJsonFields

/-- A concrete admission request (over a trivial object payload), shaped
after the `WEBHOOK_BODY` test fixture in `admission.rs`. -/
def sampleAdmissionRequest : AdmissionRequest Unit :=
  { types := { api_version := "", kind := "" }
    uid := "0c9a8d74-9cb7-44dd-b98e-09fd62def2f4"
    kind := { group := "", version := "v1", kind := "Pod",
              api_version := "v1", plural := none }
    resource := { group := "", version := "v1", resource := "pods",
                  api_version := "v1" }
    sub_resource := none
    request_kind := none
    request_resource := none
    request_sub_resource := none
    name := "echo-pod"
    namespace_ := some "colin-coder"
    operation := .CREATE
    user_info := { username := some "colin@coder.com", uid := none,
                   groups := some ["system:authenticated"] }
    object := some ()
    old_object := none
    dry_run := false
    options := none }

/-- A concrete incoming v1 admission review envelope. -/
def sampleAdmissionReview : AdmissionReview Unit :=
  { types := { api_version := "admission.k8s.io/v1", kind := "AdmissionReview" }
    request := some sampleAdmissionRequest
    response := none }

/-- A concrete discovered resource that omits both group and version. -/
def sampleAPIResource : APIResource :=
  { group := none, version := none, kind := "Foo", name := "foos" }

theorem splitFirstSlash_eq_none_of_not_mem (cs : List Char) (h : '/' ∉ cs) :
    splitFirstSlash cs = none := by
  induction cs with
  | nil => rfl
  | cons c cs ih =>
    unfold splitFirstSlash
    rw [if_neg, ih (fun hm => h (List.mem_cons_of_mem _ hm))]
    · rfl
    · intro hc; exact h (hc ▸ List.mem_cons_self _ _)

/-- C1: for any admission review whose `request` field is populated,
converting it to an `AdmissionRequest`, building the default
`AdmissionResponse` from that request, and wrapping with `into_review`
yields a review whose `types` equal the input envelope's, whose response
`uid` equals the request's, whose response is allowed, and whose `request`
field is empty. -/
theorem admission_roundtrip_preserves_types_uid {T : Type}
    (r : AdmissionReview T) (req : AdmissionRequest T)
    (h : r.request = some req) :
    ∃ creq, r.try_into = .ok creq
      ∧ (AdmissionResponse.from_request creq).into_review.types = r.types
      ∧ ((AdmissionResponse.from_request creq).into_review.response.map
            AdmissionResponse.uid) = some req.uid
      ∧ ((AdmissionResponse.from_request creq).into_review.response.map
            AdmissionResponse.allowed) = some true
      ∧ (AdmissionResponse.from_request creq).into_review.request = none := by
  refine ⟨{ req with types := r.types }, ?_, rfl, rfl, rfl, rfl⟩
  unfold AdmissionReview.try_into
  rw [h]

/-- Witness for C1 on the concrete sample review. -/
theorem admission_roundtrip_preserves_types_uid_witness :
    sampleAdmissionReview.request = some sampleAdmissionRequest
    ∧ ∃ creq, sampleAdmissionReview.try_into = .ok creq
      ∧ (AdmissionResponse.from_request creq).into_review.types
          = sampleAdmissionReview.types
      ∧ ((AdmissionResponse.from_request creq).into_review.response.map
            AdmissionResponse.uid) = some sampleAdmissionRequest.uid
      ∧ ((AdmissionResponse.from_request creq).into_review.response.map
            AdmissionResponse.allowed) = some true
      ∧ (AdmissionResponse.from_request creq).into_review.request = none :=
  ⟨rfl, admission_roundtrip_preserves_types_uid sampleAdmissionReview
      sampleAdmissionRequest rfl⟩

/-- C2: converting an `AdmissionReview` into an `AdmissionRequest` fails
with a `RequestValidation` error exactly when the envelope's `request` is
absent; otherwise it returns the request with its `types` replaced by the
envelope's. -/
theorem try_into_requestValidation_iff_no_request {T : Type}
    (r : AdmissionReview T) :
    ((∃ msg, r.try_into = .error (KubeError.RequestValidation msg))
      ↔ r.request = none)
    ∧ (∀ req, r.request = some req →
        r.try_into = .ok { req with types := r.types }) := by
  unfold AdmissionReview.try_into
  cases h : r.request with
  | none => simp
  | some req => simp

/-- Witness for C2 on the concrete sample review. -/
theorem try_into_requestValidation_iff_no_request_witness :
    sampleAdmissionReview.try_into
      = .ok { sampleAdmissionRequest with types := sampleAdmissionReview.types } :=
  (try_into_requestValidation_iff_no_request sampleAdmissionReview).2
    sampleAdmissionRequest rfl

/-- C3: `GroupVersionKind::gvk` fails with a `DynamicType` error exactly
when `version` or `kind` is empty; on success `api_version` is `version`
for the core (empty) group and `group/version` otherwise, and `plural` is
unset. -/
theorem gvk_dynamicType_iff_empty_else_apiVersion (group version kind : String) :
    ((∃ e, GroupVersionKind.gvk group version kind = .error e ∧ e.isDynamicType)
      ↔ (version = "" ∨ kind = ""))
    ∧ (∀ g, GroupVersionKind.gvk group version kind = .ok g →
        g.api_version = (if group = "" then version else group ++ "/" ++ version)
        ∧ g.plural = none) := by
  simp only [GroupVersionKind.gvk, String.isEmpty_iff]
  by_cases hv : version = "" <;> by_cases hk : kind = "" <;>
    simp [hv, hk, KubeError.isDynamicType]

/-- Witness for C3 at the concrete triple apps/v1 Deployment. -/
theorem gvk_dynamicType_iff_empty_else_apiVersion_witness :
    GroupVersionKind.gvk "apps" "v1" "Deployment" = .ok
      { group := "apps", version := "v1", kind := "Deployment",
        api_version := "apps/v1", plural := none }
    ∧ ({ group := "apps", version := "v1", kind := "Deployment",
         api_version := "apps/v1", plural := none } : GroupVersionKind).api_version
        = (if "apps" = "" then "v1" else "apps" ++ "/" ++ "v1")
    ∧ ({ group := "apps", version := "v1", kind := "Deployment",
         api_version := "apps/v1", plural := none } : GroupVersionKind).plural
        = none :=
  ⟨rfl,
   ((gvk_dynamicType_iff_empty_else_apiVersion "apps" "v1" "Deployment").2 _ rfl).1,
   ((gvk_dynamicType_iff_empty_else_apiVersion "apps" "v1" "Deployment").2 _ rfl).2⟩

/-- C4: `deny` flips `allowed` to false and records the reason as the
result message, leaving `uid`, `types`, `patch`, `patch_type`,
`audit_annotations` and `warnings` unchanged. -/
theorem deny_flips_allowed_sets_message_frames_rest
    (r : AdmissionResponse) (reason : String) :
    (r.deny reason).allowed = false
    ∧ (r.deny reason).result.message = some reason
    ∧ (r.deny reason).uid = r.uid
    ∧ (r.deny reason).types = r.types
    ∧ (r.deny reason).patch = r.patch
    ∧ (r.deny reason).patch_type = r.patch_type
    ∧ (r.deny reason).audit_annotations = r.audit_annotations
    ∧ (r.deny reason).warnings = r.warnings :=
  ⟨rfl, rfl, rfl, rfl, rfl, rfl, rfl, rfl⟩

/-- C5: `invalid` builds a denial with empty uid, the reason in the result
status, and an envelope typed `AdmissionReview` at a supported admission
API version, so `into_review` produces a schema-valid review carrying it
as the response. -/
theorem invalid_is_schema_valid_denial (reason : String) :
    (AdmissionResponse.invalid reason).allowed = false
    ∧ (AdmissionResponse.invalid reason).uid = ""
    ∧ (AdmissionResponse.invalid reason).result.reason = some reason
    ∧ (AdmissionResponse.invalid reason).types.kind = META_KIND
    ∧ ((AdmissionResponse.invalid reason).types.api_version = META_API_VERSION_V1
        ∨ (AdmissionResponse.invalid reason).types.api_version
            = META_API_VERSION_V1BETA1)
    ∧ (AdmissionResponse.invalid reason).into_review.types
        = { kind := META_KIND, api_version := META_API_VERSION_V1BETA1 }
    ∧ (AdmissionResponse.invalid reason).into_review.request = none
    ∧ (AdmissionResponse.invalid reason).into_review.response
        = some (AdmissionResponse.invalid reason) :=
  ⟨rfl, rfl, rfl, rfl, Or.inr rfl, rfl, rfl, rfl⟩

/-- C6: `ListParams::validate` fails with a `RequestValidation` error
exactly when a timeout of at least 295 seconds is set; a timeout of 294
passes, as does an unset timeout. -/
theorem listParams_validate_error_iff_timeout_ge_295 (p : ListParams) :
    ((∃ e, p.validate = .error e ∧ e.isRequestValidation)
      ↔ (∃ t, p.timeout = some t ∧ 295 ≤ t))
    ∧ (ListParams.validate { ListParams.default with timeout := some 294 }
        = .ok ())
    ∧ (ListParams.default.validate = .ok ()) := by
  refine ⟨?_, by rfl, by rfl⟩
  unfold ListParams.validate
  cases h : p.timeout with
  | none => simp [h]
  | some t =>
    by_cases ht : 295 ≤ t
    · simp [h, ht, KubeError.isRequestValidation, ge_iff_le]
    · simp [h, ht, ge_iff_le]

/-- C7: `DeleteParams::default()` serializes to the empty JSON object,
`dry_run = true` serializes to exactly a one-member object whose `dryRun`
is the array `["All"]`, and for every `DeleteParams` the `dryRun` body
field is either omitted or that single-element array. -/
theorem deleteParams_dryRun_serialization (p : DeleteParams) :
    Json.render DeleteParams.default.toJson = "\x7b\x7d"
    ∧ Json.render ({ DeleteParams.default with dry_run := true }).toJson
        = "\x7b\"dryRun\":[\"All\"]\x7d"
    ∧ (p.toJsonFields.lookup "dryRun" = none
        ∨ p.toJsonFields.lookup "dryRun" = some (Json.arr [Json.str "All"])) := by
  refine ⟨by decide, by decide, ?_⟩
  cases hd : p.dry_run <;> cases hg : p.grace_period_seconds <;>
    cases hpp : p.propagation_policy <;> cases hpc : p.preconditions <;>
    simp [DeleteParams.toJsonFields, dry_run_all_ser, List.lookup, hd, hg, hpp, hpc]

/-- C8: `content_type` maps each patch variant to its MIME type, and
`is_apply` holds exactly on the `Apply` variant. -/
theorem patch_content_type_and_is_apply {T : Type} :
    (∀ t : T, (Patch.Apply t).content_type = "application/apply-patch+yaml")
    ∧ (∀ j : Json, ((Patch.Json j : Patch T)).content_type
        = "application/json-patch+json")
    ∧ (∀ t : T, (Patch.Merge t).content_type = "application/merge-patch+json")
    ∧ (∀ t : T, (Patch.Strategic t).content_type
        = "application/strategic-merge-patch+json")
    ∧ (∀ p : Patch T, p.is_apply = true ↔ ∃ t, p = Patch.Apply t) := by
  refine ⟨fun t => rfl, fun j => rfl, fun t => rfl, fun t => rfl, fun p => ?_⟩
  cases p <;> simp [Patch.is_apply]

/-- C9: the plural derivations of `DynamicObject` and `Object` agree on
every descriptor (explicit plural when set, inferred from the lowercased
kind otherwise), and kind "Service" with no explicit plural infers
"services". -/
theorem dynamicObject_object_plural_agree (dt : GroupVersionKind) :
    DynamicObject.plural dt = Object.plural dt
    ∧ DynamicObject.plural
        { group := "", version := "v1", kind := "Service",
          api_version := "v1", plural := none } = "services" := by
  constructor
  · cases hp : dt.plural <;>
      simp [DynamicObject.plural, Object.plural, DynamicObject.kind,
            Object.kind, hp]
  · decide

/-- C10: `from_api_resource` is total and never validates emptiness: the
plural is always the declared resource name; with group and version absent
from the `APIResource` and no slash in `group_version`, the whole string
becomes the version with an empty group; and the empty `group_version`
yields an empty version, which `gvk` would reject with a `DynamicType`
error. -/
theorem from_api_resource_total_no_validation (ar : APIResource) (gv : String) :
    (GroupVersionKind.from_api_resource ar gv).plural = some ar.name
    ∧ (ar.group = none → ar.version = none → '/' ∉ gv.toList →
        (GroupVersionKind.from_api_resource ar gv).group = ""
        ∧ (GroupVersionKind.from_api_resource ar gv).version = gv)
    ∧ (ar.group = none → ar.version = none →
        (GroupVersionKind.from_api_resource ar "").version = ""
        ∧ ∃ e, GroupVersionKind.gvk
            (GroupVersionKind.from_api_resource ar "").group
            (GroupVersionKind.from_api_resource ar "").version
            (GroupVersionKind.from_api_resource ar "").kind = .error e
            ∧ e.isDynamicType) := by
  refine ⟨rfl, ?_, ?_⟩
  · intro hg hv hns
    unfold GroupVersionKind.from_api_resource splitGroupVersion
    rw [splitFirstSlash_eq_none_of_not_mem _ hns]
    simp [hg, hv]
  · intro hg hv
    obtain ⟨ag, av, ak, an⟩ := ar
    have hg' : ag = none := hg
    have hv' : av = none := hv
    subst hg'
    subst hv'
    exact ⟨rfl, ⟨_, rfl, rfl⟩⟩

/-- Witness for C10 on a discovered resource with no group or version and
an empty or slash-free group_version string. -/
theorem from_api_resource_total_no_validation_witness :
    (GroupVersionKind.from_api_resource sampleAPIResource "").plural
      = some "foos"
    ∧ ((GroupVersionKind.from_api_resource sampleAPIResource "v1").group = ""
        ∧ (GroupVersionKind.from_api_resource sampleAPIResource "v1").version
            = "v1")
    ∧ ((GroupVersionKind.from_api_resource sampleAPIResource "").version = ""
        ∧ ∃ e, GroupVersionKind.gvk
            (GroupVersionKind.from_api_resource sampleAPIResource "").group
            (GroupVersionKind.from_api_resource sampleAPIResource "").version
            (GroupVersionKind.from_api_resource sampleAPIResource "").kind
            = .error e ∧ e.isDynamicType) :=
  ⟨(from_api_resource_total_no_validation sampleAPIResource "").1,
   (from_api_resource_total_no_validation sampleAPIResource "v1").2.1
     rfl rfl (by decide),
   (from_api_resource_total_no_validation sampleAPIResource "").2.2 rfl rfl⟩
